import Mathlib

/-!
A shallow embedding of the sales-analytics pipeline (`main.py`,
`utils/data_processor.py`, `utils/api_handler.py`, `utils/file_handler.py`)
and proofs about it.

Modelling conventions:
* Python `float` is idealised as `Rat`; Python `int` as `Int`/`Nat`.
* Python `round(x, 2)` is round-half-to-even at two decimals (`round2`).
* Python dicts used as grouping accumulators preserve first-seen key
  insertion order; they are modelled as association lists built with
  `upsert` (update in place, append new keys at the end).
* Python's stable sorts (`sorted`, `list.sort`) are modelled by
  `List.insertionSort`, which is stable with the same tie behaviour.
* A function that can raise an uncaught exception returns an `Option`,
  with `none` marking the raise.
-/

/-- A parsed sales transaction: the eight typed fields produced by
`parse_transactions` in `utils/file_handler.py`. -/
structure Transaction where
  TransactionID : String
  Date : String
  ProductID : String
  ProductName : String
  Quantity : Int
  UnitPrice : Rat
  CustomerID : String
  Region : String
deriving Repr, DecidableEq

/-- The derived amount of a transaction: `Quantity * UnitPrice`. -/
def txAmount (tx : Transaction) : Rat :=
  (tx.Quantity : Rat) * tx.UnitPrice

/-- Round to the nearest integer, ties to even: the rounding used by
Python's built-in `round`. -/
def roundHalfEven (x : Rat) : Int :=
  if x - ⌊x⌋ < 1/2 then ⌊x⌋
  else if 1/2 < x - ⌊x⌋ then ⌊x⌋ + 1
  else if ⌊x⌋ % 2 = 0 then ⌊x⌋ else ⌊x⌋ + 1

/-- Python's `round(x, 2)`. -/
def round2 (x : Rat) : Rat :=
  ((roundHalfEven (x * 100) : Int) : Rat) / 100

/-- Insert-or-update in an association list, keeping first-seen key order:
the behaviour of a Python `dict` / `defaultdict` accumulator.  A present
key is updated in place; a new key is appended at the end with `f`
applied to the default `d`. -/
def upsert {β : Type} (k : String) (f : β → β) (d : β) :
    List (String × β) → List (String × β)
  | [] => [(k, f d)]
  | (k', v) :: rest =>
      if k' = k then (k', f v) :: rest else (k', v) :: upsert k f d rest

namespace DataProcessor

/-- The running revenue sum `total_revenue += tx["Quantity"] * tx["UnitPrice"]`
(`utils/data_processor.py`, used by `calculate_total_revenue` and as
`grand_total` in `region_wise_sales`). -/
def revenueSum (txs : List Transaction) : Rat :=
  txs.foldl (fun s tx => s + txAmount tx) 0

/-- `calculate_total_revenue` (`utils/data_processor.py`, lines 5-14). -/
def calculate_total_revenue (txs : List Transaction) : Rat :=
  round2 (revenueSum txs)

/-- Accumulator entry of `region_data` in `region_wise_sales`. -/
structure RegionAcc where
  total_sales : Rat
  transaction_count : Nat
deriving Repr, DecidableEq

/-- One loop step of `region_wise_sales`: add revenue and bump the count
for the transaction's region. -/
def regionStep (tx : Transaction) (acc : List (String × RegionAcc)) :
    List (String × RegionAcc) :=
  upsert tx.Region
    (fun d => ⟨d.total_sales + txAmount tx, d.transaction_count + 1⟩)
    ⟨0, 0⟩ acc

/-- The `region_data` accumulation loop of `region_wise_sales`. -/
def regionFold (txs : List Transaction) : List (String × RegionAcc) :=
  txs.foldl (fun acc tx => regionStep tx acc) []

/-- Output entry of `region_wise_sales`, with the percentage field added. -/
structure RegionInfo where
  total_sales : Rat
  transaction_count : Nat
  percentage : Rat
deriving Repr, DecidableEq

/-- Sort relation of `region_wise_sales`: `total_sales` descending. -/
def regionGe (a b : String × RegionInfo) : Prop :=
  b.2.total_sales ≤ a.2.total_sales

instance : DecidableRel regionGe :=
  fun a b => inferInstanceAs (Decidable (b.2.total_sales ≤ a.2.total_sales))

instance : IsTotal (String × RegionInfo) regionGe :=
  ⟨fun a b => le_total b.2.total_sales a.2.total_sales⟩

instance : IsTrans (String × RegionInfo) regionGe :=
  ⟨fun _ _ _ hab hbc => le_trans hbc hab⟩

/-- `region_wise_sales` (`utils/data_processor.py`, lines 17-47).  The
percentage loop divides each region's `total_sales` by `grand_total`;
when `grand_total` is zero and at least one region exists this raises
`ZeroDivisionError` in Python, modelled by `none`. -/
def region_wise_sales (txs : List Transaction) :
    Option (List (String × RegionInfo)) :=
  let rd := regionFold txs
  let g := revenueSum txs
  if g = 0 ∧ rd ≠ [] then none
  else some (List.insertionSort regionGe (rd.map fun e =>
    (e.1, ⟨e.2.total_sales, e.2.transaction_count,
           round2 (e.2.total_sales / g * 100)⟩)))

/-- Accumulator entry of `product_data` in `top_selling_products` and
`low_performing_products`. -/
structure ProdAcc where
  quantity : Int
  revenue : Rat
deriving Repr, DecidableEq

/-- The `product_data` accumulation loop shared by `top_selling_products`
and `low_performing_products`. -/
def productFold (txs : List Transaction) : List (String × ProdAcc) :=
  txs.foldl (fun acc tx =>
    upsert tx.ProductName
      (fun d => ⟨d.quantity + tx.Quantity, d.revenue + txAmount tx⟩)
      ⟨0, 0⟩ acc) []

/-- Sort relation of `top_selling_products`: summed quantity descending. -/
def prodGe (a b : String × ProdAcc) : Prop :=
  b.2.quantity ≤ a.2.quantity

instance : DecidableRel prodGe :=
  fun a b => inferInstanceAs (Decidable (b.2.quantity ≤ a.2.quantity))

instance : IsTotal (String × ProdAcc) prodGe :=
  ⟨fun a b => le_total b.2.quantity a.2.quantity⟩

instance : IsTrans (String × ProdAcc) prodGe :=
  ⟨fun _ _ _ hab hbc => le_trans hbc hab⟩

/-- The `sorted_products` list of `top_selling_products`. -/
def sortedProducts (txs : List Transaction) : List (String × ProdAcc) :=
  List.insertionSort prodGe (productFold txs)

/-- `top_selling_products` (`utils/data_processor.py`, lines 50-77). -/
def top_selling_products (txs : List Transaction) (n : Nat) :
    List (String × Int × Rat) :=
  ((sortedProducts txs).take n).map fun e =>
    (e.1, e.2.quantity, round2 e.2.revenue)

/-- Sort relation of `low_performing_products` on its result tuples:
quantity ascending. -/
def lowTupleLe (a b : String × Int × Rat) : Prop :=
  a.2.1 ≤ b.2.1

instance : DecidableRel lowTupleLe :=
  fun a b => inferInstanceAs (Decidable (a.2.1 ≤ b.2.1))

instance : IsTotal (String × Int × Rat) lowTupleLe :=
  ⟨fun a b => le_total a.2.1 b.2.1⟩

instance : IsTrans (String × Int × Rat) lowTupleLe :=
  ⟨fun _ _ _ hab hbc => le_trans hab hbc⟩

/-- `low_performing_products` (`utils/data_processor.py`, lines 181-206):
keep grouped products with summed quantity strictly below `threshold`
(in first-seen order), then stable-sort by quantity ascending. -/
def low_performing_products (txs : List Transaction) (threshold : Int) :
    List (String × Int × Rat) :=
  List.insertionSort lowTupleLe
    (((productFold txs).filter fun e => e.2.quantity < threshold).map
      fun e => (e.1, e.2.quantity, round2 e.2.revenue))

/-- Accumulator entry of `customer_data` in `customer_analysis`; the
`products_bought` set is modelled as a duplicate-free insertion list. -/
structure CustomerAcc where
  total_spent : Rat
  purchase_count : Nat
  products_bought : List String
deriving Repr, DecidableEq

/-- Formatted output entry of `customer_analysis`. -/
structure CustomerInfo where
  total_spent : Rat
  purchase_count : Nat
  avg_order_value : Rat
  products_bought : List String
deriving Repr, DecidableEq

/-- Set insertion for `products_bought` (`set.add` in Python). -/
def setInsert (s : List String) (x : String) : List String :=
  if x ∈ s then s else s ++ [x]

/-- Sort relation of `customer_analysis`: `total_spent` descending. -/
def custGe (a b : String × CustomerInfo) : Prop :=
  b.2.total_spent ≤ a.2.total_spent

instance : DecidableRel custGe :=
  fun a b => inferInstanceAs (Decidable (b.2.total_spent ≤ a.2.total_spent))

instance : IsTotal (String × CustomerInfo) custGe :=
  ⟨fun a b => le_total b.2.total_spent a.2.total_spent⟩

instance : IsTrans (String × CustomerInfo) custGe :=
  ⟨fun _ _ _ hab hbc => le_trans hbc hab⟩

/-- `customer_analysis` (`utils/data_processor.py`, lines 80-121).  Every
accumulated entry has `purchase_count ≥ 1`, so the average-order-value
division is never by zero. -/
def customer_analysis (txs : List Transaction) :
    List (String × CustomerInfo) :=
  let cd : List (String × CustomerAcc) := txs.foldl (fun acc tx =>
    upsert tx.CustomerID
      (fun d => ⟨d.total_spent + txAmount tx, d.purchase_count + 1,
                 setInsert d.products_bought tx.ProductName⟩)
      ⟨0, 0, []⟩ acc) []
  List.insertionSort custGe (cd.map fun e =>
    (e.1, ⟨round2 e.2.total_spent, e.2.purchase_count,
           round2 (e.2.total_spent / (e.2.purchase_count : Rat)),
           List.insertionSort (· ≤ ·) e.2.products_bought⟩))

/-- Accumulator entry of `daily_data` in `daily_sales_trend`. -/
structure DayAcc where
  revenue : Rat
  transaction_count : Nat
  unique_customers : List String
deriving Repr, DecidableEq

/-- Sort relation ordering daily entries by date (plain string order). -/
def dayLe (a b : String × DayAcc) : Prop :=
  a.1 ≤ b.1

instance : DecidableRel dayLe :=
  fun a b => inferInstanceAs (Decidable (a.1 ≤ b.1))

instance : IsTotal (String × DayAcc) dayLe :=
  ⟨fun a b => le_total a.1 b.1⟩

instance : IsTrans (String × DayAcc) dayLe :=
  ⟨fun _ _ _ hab hbc => le_trans hab hbc⟩

/-- `daily_sales_trend` (`utils/data_processor.py`, lines 124-153). -/
def daily_sales_trend (txs : List Transaction) :
    List (String × Rat × Nat × Nat) :=
  let dd : List (String × DayAcc) := txs.foldl (fun acc tx =>
    upsert tx.Date
      (fun d => ⟨d.revenue + txAmount tx, d.transaction_count + 1,
                 setInsert d.unique_customers tx.CustomerID⟩)
      ⟨0, 0, []⟩ acc) []
  (List.insertionSort dayLe dd).map fun e =>
    (e.1, round2 e.2.revenue, e.2.transaction_count,
     e.2.unique_customers.length)

/-- Accumulator entry of `daily_revenue` in `find_peak_sales_day`. -/
structure PeakAcc where
  revenue : Rat
  count : Nat
deriving Repr, DecidableEq

/-- `find_peak_sales_day` (`utils/data_processor.py`, lines 156-178).
Python's `max` over `daily_revenue.items()` keeps the first item and
replaces it only on a strictly greater key; on an empty accumulation it
raises `ValueError`, modelled by `none`. -/
def find_peak_sales_day (txs : List Transaction) :
    Option (String × Rat × Nat) :=
  let dr : List (String × PeakAcc) := txs.foldl (fun acc tx =>
    upsert tx.Date
      (fun d => ⟨d.revenue + txAmount tx, d.count + 1⟩)
      ⟨0, 0⟩ acc) []
  match dr with
  | [] => none
  | d :: ds =>
      let peak := ds.foldl
        (fun best e => if best.2.revenue < e.2.revenue then e else best) d
      some (peak.1, round2 peak.2.revenue, peak.2.count)

end DataProcessor

namespace ApiHandler

/-- An entry of the product catalog mapping built by
`create_product_mapping` (`utils/api_handler.py`): the fields copied out
of an API product record, each possibly absent. -/
structure CatalogEntry where
  title : Option String
  category : Option String
  brand : Option String
  rating : Option Rat
deriving Repr, DecidableEq

/-- The digit-string value parsed by Python's `int`. -/
def digitsVal (ds : List Char) : Nat :=
  ds.foldl (fun n c => 10 * n + (c.toNat - 48)) 0

/-- The numeric-id extraction
`int("".join(filter(str.isdigit, product_id_str)))` of
`enrich_sales_data` (`utils/api_handler.py`, line 74): concatenate the
digit characters and parse them; with no digits, `int("")` raises
`ValueError` (caught by the enclosing handler), modelled by `none`. -/
def extractNumericId (s : String) : Option Nat :=
  match s.toList.filter Char.isDigit with
  | [] => none
  | ds => some (digitsVal ds)

/-- A transaction together with the enrichment fields added by
`enrich_sales_data`.  `base` is the copied transaction (`tx.copy()`);
the `API_*` fields default to absent and `API_Match` to false. -/
structure EnrichedTransaction where
  base : Transaction
  API_Category : Option String
  API_Brand : Option String
  API_Rating : Option Rat
  API_Match : Bool
deriving Repr, DecidableEq

/-- The per-transaction body of `enrich_sales_data`
(`utils/api_handler.py`, lines 62-88): copy the record with default
enrichment values; if numeric-id extraction succeeds and the id is a key
of the mapping, copy `category`, `brand`, `rating` and set
`API_Match = True`; any failure keeps the defaults. -/
def enrichOne (m : List (Nat × CatalogEntry)) (tx : Transaction) :
    EnrichedTransaction :=
  match extractNumericId tx.ProductID with
  | none => ⟨tx, none, none, none, false⟩
  | some id =>
      match m.lookup id with
      | none => ⟨tx, none, none, none, false⟩
      | some e => ⟨tx, e.category, e.brand, e.rating, true⟩

/-- `enrich_sales_data` (`utils/api_handler.py`, lines 56-94), minus the
file-save and print side effects: one output record per input record, in
input order. -/
def enrich_sales_data (txs : List Transaction)
    (m : List (Nat × CatalogEntry)) : List EnrichedTransaction :=
  txs.map (enrichOne m)

end ApiHandler

/-- A raw input record to `validate_and_filter`: each of the eight fields
may be absent (a missing dictionary key). -/
structure RawRecord where
  TransactionID : Option String
  Date : Option String
  ProductID : Option String
  ProductName : Option String
  Quantity : Option Int
  UnitPrice : Option Rat
  CustomerID : Option String
  Region : Option String
deriving Repr, DecidableEq

/-- How one record fares in the `validate_and_filter` loop: rejected as
invalid, dropped by the region filter, dropped by the amount filter, or
accepted. -/
inductive VFOutcome
  | invalid
  | byRegion
  | byAmount
  | accepted
deriving Repr, DecidableEq

/-- Summary dictionary returned by `validate_and_filter`. -/
structure FilterSummary where
  total_input : Nat
  invalid : Nat
  filtered_by_region : Nat
  filtered_by_amount : Nat
  final_count : Nat
deriving Repr, DecidableEq

/-- The amount filters of `validate_and_filter`: drop when below a set
`min_amount` or above a set `max_amount`, else accept. -/
def amountFilter (mn mx : Option Rat) (amount : Rat) : VFOutcome :=
  if (match mn with | some m => decide (amount < m) | none => false) then .byAmount
  else if (match mx with | some m => decide (m < amount) | none => false) then .byAmount
  else .accepted

/-- The `validate_and_filter` loop shared by both implementations:
process records in order, routing each through `classify`, and return
(accepted records in input order, invalid count, region-filtered count,
amount-filtered count). -/
def vfLoop (classify : RawRecord → VFOutcome) :
    List RawRecord → List RawRecord × Nat × Nat × Nat
  | [] => ([], 0, 0, 0)
  | r :: rs =>
      let t := vfLoop classify rs
      match classify r with
      | .invalid => (t.1, t.2.1 + 1, t.2.2.1, t.2.2.2)
      | .byRegion => (t.1, t.2.1, t.2.2.1 + 1, t.2.2.2)
      | .byAmount => (t.1, t.2.1, t.2.2.1, t.2.2.2 + 1)
      | .accepted => (r :: t.1, t.2.1, t.2.2.1, t.2.2.2)

namespace FileHandler

/-- Per-record outcome of `validate_and_filter` in
`utils/file_handler.py` (lines 113-154).  Checks run in source order:
`Quantity > 0`, `UnitPrice > 0`, then the three id-pattern checks; a
missing key raises `KeyError`, which the loop catches and counts as
invalid.  The region filter reads `tx["Region"]` only when the filter
string is truthy, so a record missing `Region` is invalid only then. -/
def classify (region : Option String) (mn mx : Option Rat)
    (r : RawRecord) : VFOutcome :=
  match r.Quantity with
  | none => .invalid
  | some q =>
  if q ≤ 0 then .invalid else
  match r.UnitPrice with
  | none => .invalid
  | some p =>
  if p ≤ 0 then .invalid else
  match r.TransactionID with
  | none => .invalid
  | some tid =>
  if ¬ tid.startsWith "T" then .invalid else
  match r.ProductID with
  | none => .invalid
  | some pid =>
  if ¬ pid.startsWith "P" then .invalid else
  match r.CustomerID with
  | none => .invalid
  | some cid =>
  if ¬ cid.startsWith "C" then .invalid else
  let amount := (q : Rat) * p
  match region with
  | some rf =>
      if rf ≠ "" then
        match r.Region with
        | none => .invalid
        | some reg =>
            if reg ≠ rf then .byRegion else amountFilter mn mx amount
      else amountFilter mn mx amount
  | none => amountFilter mn mx amount

/-- `validate_and_filter` (`utils/file_handler.py`, lines 85-163), minus
the diagnostic prints: returns the accepted records, the invalid count,
and the summary dictionary. -/
def validate_and_filter (txs : List RawRecord) (region : Option String)
    (mn mx : Option Rat) : List RawRecord × Nat × FilterSummary :=
  let t := vfLoop (classify region mn mx) txs
  (t.1, t.2.1, ⟨txs.length, t.2.1, t.2.2.1, t.2.2.2, t.1.length⟩)

end FileHandler

namespace MainPy

/-- Per-record outcome of `validate_and_filter` in `main.py`
(lines 291-335).  Checks run in source order: all six required keys
present, the three id-pattern checks, then `Quantity > 0` and
`UnitPrice > 0`; `Region` is among the required keys, so the region
filter always finds it. -/
def classify (region : Option String) (mn mx : Option Rat)
    (r : RawRecord) : VFOutcome :=
  match r.TransactionID, r.ProductID, r.CustomerID,
        r.Quantity, r.UnitPrice, r.Region with
  | some tid, some pid, some cid, some q, some p, some reg =>
      if ¬ tid.startsWith "T" then .invalid
      else if ¬ pid.startsWith "P" then .invalid
      else if ¬ cid.startsWith "C" then .invalid
      else if q ≤ 0 ∨ p ≤ 0 then .invalid
      else
        let amount := (q : Rat) * p
        match region with
        | some rf =>
            if rf ≠ "" ∧ reg ≠ rf then .byRegion
            else amountFilter mn mx amount
        | none => amountFilter mn mx amount
  | _, _, _, _, _, _ => .invalid

/-- `validate_and_filter` (`main.py`, lines 256-343), minus the
diagnostic prints. -/
def validate_and_filter (txs : List RawRecord) (region : Option String)
    (mn mx : Option Rat) : List RawRecord × Nat × FilterSummary :=
  let t := vfLoop (classify region mn mx) txs
  (t.1, t.2.1, ⟨txs.length, t.2.1, t.2.2.1, t.2.2.2, t.1.length⟩)

end MainPy

namespace MainPy

/-- Accumulator entry of `region_data` in `generate_sales_report`. -/
structure RRegion where
  revenue : Rat
  count : Nat
deriving Repr, DecidableEq

/-- Accumulator entry of `product_data` in `generate_sales_report`. -/
structure RProd where
  qty : Int
  revenue : Rat
deriving Repr, DecidableEq

/-- Accumulator entry of `customer_data` in `generate_sales_report`. -/
structure RCust where
  spent : Rat
  count : Nat
deriving Repr, DecidableEq

/-- Accumulator entry of `daily_data` in `generate_sales_report`; the
customer set is modelled as a duplicate-free insertion list. -/
structure RDaily where
  revenue : Rat
  count : Nat
  customers : List String
deriving Repr, DecidableEq

/-- Duplicate-free insertion (`set.add`). -/
def setInsert (s : List String) (x : String) : List String :=
  if x ∈ s then s else s ++ [x]

/-- `total_revenue` of the report (`main.py`, line 107): the raw sum,
not rounded. -/
def reportTotalRevenue (txs : List Transaction) : Rat :=
  txs.foldl (fun s tx => s + txAmount tx) 0

/-- `avg_order_value` of the report (`main.py`, line 108), guarded
against an empty set. -/
def reportAvgOrderValue (txs : List Transaction) : Rat :=
  if txs.length ≠ 0 then reportTotalRevenue txs / (txs.length : Rat) else 0

/-- `date_range` of the report (`main.py`, lines 110-111): sort the
dates and render `first to last`, or `"N/A"` when there are none. -/
def reportDateRange (txs : List Transaction) : String :=
  let dates := List.insertionSort (· ≤ ·) (txs.map Transaction.Date)
  match dates with
  | [] => "N/A"
  | d :: ds => d ++ " to " ++ (ds.getLast?.getD d)

/-- The `region_data` fold of the report (`main.py`, lines 114-119). -/
def regionData (txs : List Transaction) : List (String × RRegion) :=
  txs.foldl (fun acc tx =>
    upsert tx.Region (fun d => ⟨d.revenue + txAmount tx, d.count + 1⟩)
      ⟨0, 0⟩ acc) []

/-- Sort relation of `region_rows`: revenue descending. -/
def rowGe (a b : String × Rat × Rat × Nat) : Prop :=
  b.2.1 ≤ a.2.1

instance : DecidableRel rowGe :=
  fun a b => inferInstanceAs (Decidable (b.2.1 ≤ a.2.1))

/-- `region_rows` of the report (`main.py`, lines 121-126): percentage
guarded to 0 when the total revenue is zero, sorted by revenue
descending. -/
def regionRows (txs : List Transaction) : List (String × Rat × Rat × Nat) :=
  let tr := reportTotalRevenue txs
  List.insertionSort rowGe ((regionData txs).map fun e =>
    (e.1, e.2.revenue,
     if tr ≠ 0 then e.2.revenue / tr * 100 else 0, e.2.count))

/-- The `product_data` fold of the report (`main.py`, lines 129-133). -/
def productData (txs : List Transaction) : List (String × RProd) :=
  txs.foldl (fun acc tx =>
    upsert tx.ProductName
      (fun d => ⟨d.qty + tx.Quantity, d.revenue + txAmount tx⟩)
      ⟨0, 0⟩ acc) []

/-- Sort relation of the report's `top_products`: quantity descending. -/
def rprodGe (a b : String × RProd) : Prop :=
  b.2.qty ≤ a.2.qty

instance : DecidableRel rprodGe :=
  fun a b => inferInstanceAs (Decidable (b.2.qty ≤ a.2.qty))

/-- `top_products` of the report (`main.py`, lines 135-139). -/
def topProducts (txs : List Transaction) : List (String × RProd) :=
  (List.insertionSort rprodGe (productData txs)).take 5

/-- The `customer_data` fold of the report (`main.py`, lines 142-146). -/
def customerData (txs : List Transaction) : List (String × RCust) :=
  txs.foldl (fun acc tx =>
    upsert tx.CustomerID
      (fun d => ⟨d.spent + txAmount tx, d.count + 1⟩)
      ⟨0, 0⟩ acc) []

/-- Sort relation of the report's `top_customers`: spend descending. -/
def rcustGe (a b : String × RCust) : Prop :=
  b.2.spent ≤ a.2.spent

instance : DecidableRel rcustGe :=
  fun a b => inferInstanceAs (Decidable (b.2.spent ≤ a.2.spent))

/-- `top_customers` of the report (`main.py`, lines 148-152). -/
def topCustomers (txs : List Transaction) : List (String × RCust) :=
  (List.insertionSort rcustGe (customerData txs)).take 5

/-- The `daily_data` fold of the report (`main.py`, lines 155-160). -/
def dailyData (txs : List Transaction) : List (String × RDaily) :=
  txs.foldl (fun acc tx =>
    upsert tx.Date
      (fun d => ⟨d.revenue + txAmount tx, d.count + 1,
                 setInsert d.customers tx.CustomerID⟩)
      ⟨0, 0, []⟩ acc) []

/-- Sort relation of `daily_rows`: date ascending (string order). -/
def rdailyLe (a b : String × RDaily) : Prop :=
  a.1 ≤ b.1

instance : DecidableRel rdailyLe :=
  fun a b => inferInstanceAs (Decidable (a.1 ≤ b.1))

/-- `daily_rows` of the report (`main.py`, line 162). -/
def dailyRows (txs : List Transaction) : List (String × RDaily) :=
  List.insertionSort rdailyLe (dailyData txs)

/-- `low_products` of the report (`main.py`, lines 167-171): unsorted,
revenue not rounded. -/
def lowProducts (txs : List Transaction) : List (String × Int × Rat) :=
  ((productData txs).filter fun e => e.2.qty < 10).map fun e =>
    (e.1, e.2.qty, e.2.revenue)

/-- `avg_tx_value_region` of the report (`main.py`, lines 173-176);
every accumulated region has `count ≥ 1`. -/
def avgTxValueRegion (txs : List Transaction) : List (String × Rat) :=
  (regionData txs).map fun e => (e.1, e.2.revenue / (e.2.count : Rat))

/-- `enriched_count` of the report (`main.py`, line 179). -/
def enrichedCount (etxs : List ApiHandler.EnrichedTransaction) : Nat :=
  (etxs.filter fun e => e.API_Match).length

/-- `enrichment_rate` of the report (`main.py`, line 180), guarded
against an empty enriched set. -/
def enrichmentRate (etxs : List ApiHandler.EnrichedTransaction) : Rat :=
  if etxs ≠ [] then
    (enrichedCount etxs : Rat) / (etxs.length : Rat) * 100
  else 0

/-- `unenriched_products` of the report (`main.py`, lines 182-186):
sorted distinct product names of unmatched records. -/
def unenrichedProducts (etxs : List ApiHandler.EnrichedTransaction) :
    List String :=
  List.insertionSort (· ≤ ·)
    (((etxs.filter fun e => !e.API_Match).map
      fun e => e.base.ProductName).dedup)

/-- Everything `generate_sales_report` computes before rendering the
text document (`main.py`, lines 103-186).  The rendering itself only
formats these values. -/
structure Report where
  total_records : Nat
  total_revenue : Rat
  avg_order_value : Rat
  date_range : String
  region_rows : List (String × Rat × Rat × Nat)
  top_products : List (String × RProd)
  top_customers : List (String × RCust)
  daily_rows : List (String × RDaily)
  best_day : String × RDaily
  low_products : List (String × Int × Rat)
  avg_tx_value_region : List (String × Rat)
  enriched_count : Nat
  enrichment_rate : Rat
  unenriched_products : List String
deriving Repr, DecidableEq

/-- `generate_sales_report` (`main.py`, lines 96-254), as the record
of computed report values.  `best_day = max(daily_rows, ...)` (line 165)
raises `ValueError` when `daily_rows` is empty, modelled by `none`;
Python's `max` keeps the first item and replaces it only on a strictly
greater key. -/
def generate_sales_report (txs : List Transaction)
    (etxs : List ApiHandler.EnrichedTransaction) : Option Report :=
  match dailyRows txs with
  | [] => none
  | d :: ds =>
      some
        { total_records := txs.length
          total_revenue := reportTotalRevenue txs
          avg_order_value := reportAvgOrderValue txs
          date_range := reportDateRange txs
          region_rows := regionRows txs
          top_products := topProducts txs
          top_customers := topCustomers txs
          daily_rows := dailyRows txs
          best_day := ds.foldl
            (fun best e => if best.2.revenue < e.2.revenue then e else best) d
          low_products := lowProducts txs
          avg_tx_value_region := avgTxValueRegion txs
          enriched_count := enrichedCount etxs
          enrichment_rate := enrichmentRate etxs
          unenriched_products := unenrichedProducts etxs }

end MainPy

/-- Sum of the `total_sales` fields of a `region_data` accumulation. -/
def regionSalesSum (l : List (String × DataProcessor.RegionAcc)) : Rat :=
  (l.map fun e => e.2.total_sales).sum

/-- Sum of the `total_sales` fields of a `region_wise_sales` result. -/
def infoSalesSum (l : List (String × DataProcessor.RegionInfo)) : Rat :=
  (l.map fun e => e.2.total_sales).sum

/-- Descending-quantity order on `top_selling_products` result tuples. -/
def topTupleGe (a b : String × Int × Rat) : Prop :=
  b.2.1 ≤ a.2.1

/-- A concrete valid transaction (quantity 2, unit price 5, region
North) used to instantiate universal results. -/
def sampleTx : Transaction :=
  ⟨"T1", "2024-01-05", "P101", "Widget", 2, 5, "C1", "North"⟩

/-- A concrete transaction whose `ProductID` mixes letters and digits. -/
def sampleTxPX : Transaction :=
  ⟨"T2", "2024-01-06", "PX1Y2", "Gadget", 3, 4, "C2", "South"⟩

/-- A concrete catalog entry. -/
def sampleEntry : ApiHandler.CatalogEntry :=
  ⟨some "Thing", some "electronics", some "Acme", some (9/2)⟩

/-- A concrete catalog mapping with the single numeric id 12. -/
def sampleCatalog : List (Nat × ApiHandler.CatalogEntry) :=
  [(12, sampleEntry)]

/-- The `region_wise_sales` output on `[sampleTx]`. -/
def sampleRegionResult : List (String × DataProcessor.RegionInfo) :=
  [("North", ⟨10, 1, 100⟩)]

/-- Concrete transactions giving two tied products (Alpha, Beta, summed
quantity 2 each) and one larger product (Gamma, summed quantity 5). -/
def tpTxA : Transaction :=
  ⟨"T3", "2024-01-07", "P1", "Alpha", 2, 10, "C3", "East"⟩

/-- Second tied-product transaction. -/
def tpTxB : Transaction :=
  ⟨"T4", "2024-01-07", "P2", "Beta", 2, 10, "C3", "East"⟩

/-- The larger-product transaction. -/
def tpTxC : Transaction :=
  ⟨"T5", "2024-01-08", "P3", "Gamma", 5, 10, "C4", "West"⟩

/-- The three-transaction sample list. -/
def tpTxs : List Transaction :=
  [tpTxA, tpTxB, tpTxC]

/-- The grouped entry for Alpha in `productFold tpTxs`. -/
def tpPdA : String × DataProcessor.ProdAcc :=
  ("Alpha", ⟨2, 20⟩)

/-- The grouped entry for Beta in `productFold tpTxs`. -/
def tpPdB : String × DataProcessor.ProdAcc :=
  ("Beta", ⟨2, 20⟩)

/-- C1: on the empty transaction set (and empty enriched set) the report
generator computes the guarded zero-valued pieces — total revenue `0`,
average order value `0`, date range `"N/A"` — but `generate_sales_report`
does not complete: the unguarded `max(daily_rows, ...)` for the
best-selling-day section raises on the empty sequence (modelled as
`none`), so the claim that the report completes without raising fails on
the code. -/
theorem generate_sales_report_empty_raises :
    MainPy.generate_sales_report [] [] = none ∧
    MainPy.reportTotalRevenue [] = 0 ∧
    MainPy.reportAvgOrderValue [] = 0 ∧
    MainPy.reportDateRange [] = "N/A" :=
  ⟨rfl, rfl, rfl, rfl⟩

/-- C2: on the empty transaction set every Analytics Engine aggregate
except `find_peak_sales_day` returns a defined zero/empty value, but
`find_peak_sales_day` itself takes `max` of an empty sequence and raises
(modelled as `none`), so the claim that every aggregate returns a
defined value fails on the code. -/
theorem analytics_empty_dataset :
    DataProcessor.calculate_total_revenue [] = 0 ∧
    DataProcessor.region_wise_sales [] = some [] ∧
    DataProcessor.top_selling_products [] 5 = [] ∧
    DataProcessor.customer_analysis [] = [] ∧
    DataProcessor.daily_sales_trend [] = [] ∧
    DataProcessor.low_performing_products [] 10 = [] ∧
    DataProcessor.find_peak_sales_day [] = none := by
  refine ⟨?_, ?_, rfl, rfl, rfl, rfl, rfl⟩
  · norm_num [DataProcessor.calculate_total_revenue, DataProcessor.revenueSum,
      round2, roundHalfEven]
  · norm_num [DataProcessor.region_wise_sales, DataProcessor.regionFold,
      DataProcessor.revenueSum, List.insertionSort]

/-- Every record processed by the `validate_and_filter` loop lands in
exactly one bucket: the three counters plus the accepted list account
for the whole input. -/
theorem vfLoop_account (c : RawRecord → VFOutcome) (rs : List RawRecord) :
    (vfLoop c rs).2.1 + (vfLoop c rs).2.2.1 + (vfLoop c rs).2.2.2
      + (vfLoop c rs).1.length = rs.length := by
  induction rs with
  | nil => rfl
  | cons r rs ih =>
      cases h : c r <;> simp [vfLoop, h] <;> omega

/-- C3: for every input record list and filter configuration, both
implementations of `validate_and_filter` (in `utils/file_handler.py` and
in `main.py`) return a result in which every record is accounted for:
the summary counts every input record exactly once as invalid,
region-filtered, amount-filtered, or accepted, `total_input` is the
input length, `final_count` is the length of the accepted list, and the
returned invalid count matches the summary.  A record failing a check is
only counted and dropped; the fold is total, so the batch is never
aborted. -/
theorem validate_and_filter_total (rs : List RawRecord)
    (region : Option String) (mn mx : Option Rat) :
    ((FileHandler.validate_and_filter rs region mn mx).2.2.invalid
      + (FileHandler.validate_and_filter rs region mn mx).2.2.filtered_by_region
      + (FileHandler.validate_and_filter rs region mn mx).2.2.filtered_by_amount
      + (FileHandler.validate_and_filter rs region mn mx).2.2.final_count
      = (FileHandler.validate_and_filter rs region mn mx).2.2.total_input) ∧
    ((FileHandler.validate_and_filter rs region mn mx).2.2.total_input
      = rs.length) ∧
    ((FileHandler.validate_and_filter rs region mn mx).2.2.final_count
      = (FileHandler.validate_and_filter rs region mn mx).1.length) ∧
    ((FileHandler.validate_and_filter rs region mn mx).2.1
      = (FileHandler.validate_and_filter rs region mn mx).2.2.invalid) ∧
    ((MainPy.validate_and_filter rs region mn mx).2.2.invalid
      + (MainPy.validate_and_filter rs region mn mx).2.2.filtered_by_region
      + (MainPy.validate_and_filter rs region mn mx).2.2.filtered_by_amount
      + (MainPy.validate_and_filter rs region mn mx).2.2.final_count
      = (MainPy.validate_and_filter rs region mn mx).2.2.total_input) ∧
    ((MainPy.validate_and_filter rs region mn mx).2.2.total_input
      = rs.length) ∧
    ((MainPy.validate_and_filter rs region mn mx).2.2.final_count
      = (MainPy.validate_and_filter rs region mn mx).1.length) ∧
    ((MainPy.validate_and_filter rs region mn mx).2.1
      = (MainPy.validate_and_filter rs region mn mx).2.2.invalid) := by
  refine ⟨?_, rfl, rfl, rfl, ?_, rfl, rfl, rfl⟩
  · simpa [FileHandler.validate_and_filter] using
      vfLoop_account (FileHandler.classify region mn mx) rs
  · simpa [MainPy.validate_and_filter] using
      vfLoop_account (MainPy.classify region mn mx) rs

/-- Running-sum form of `revenueSum`: folding from an arbitrary
accumulator adds the whole revenue sum. -/
theorem revenueSum_foldl (txs : List Transaction) (c : Rat) :
    txs.foldl (fun s tx => s + txAmount tx) c = c + DataProcessor.revenueSum txs := by
  induction txs generalizing c with
  | nil => simp [DataProcessor.revenueSum]
  | cons t ts ih =>
      have h1 : DataProcessor.revenueSum (t :: ts)
          = (0 + txAmount t) + DataProcessor.revenueSum ts := by
        simpa [DataProcessor.revenueSum] using ih (0 + txAmount t)
      simp only [List.foldl_cons, ih (c + txAmount t), h1]
      ring

/-- `revenueSum` as a mapped sum. -/
theorem revenueSum_eq_sum (txs : List Transaction) :
    DataProcessor.revenueSum txs = (txs.map txAmount).sum := by
  induction txs with
  | nil => simp [DataProcessor.revenueSum]
  | cons t ts ih =>
      have : DataProcessor.revenueSum (t :: ts)
          = (0 + txAmount t) + DataProcessor.revenueSum ts := by
        simpa [DataProcessor.revenueSum] using
          revenueSum_foldl ts (0 + txAmount t)
      rw [this, ih]
      simp

/-- A validated transaction (positive quantity and unit price) has
positive amount. -/
theorem txAmount_pos {tx : Transaction}
    (hq : 0 < tx.Quantity) (hp : 0 < tx.UnitPrice) : 0 < txAmount tx := by
  have : (0 : Rat) < (tx.Quantity : Rat) := by exact_mod_cast hq
  exact mul_pos this hp

/-- Over a nonempty validated set the revenue sum is strictly positive. -/
theorem revenueSum_pos (txs : List Transaction)
    (h : ∀ tx ∈ txs, 0 < tx.Quantity ∧ 0 < tx.UnitPrice)
    (hne : txs ≠ []) : 0 < DataProcessor.revenueSum txs := by
  rw [revenueSum_eq_sum]
  cases txs with
  | nil => exact absurd rfl hne
  | cons t ts =>
      have hpos : 0 < txAmount t :=
        txAmount_pos (h t (by simp)).1 (h t (by simp)).2
      have hnn : 0 ≤ (ts.map txAmount).sum := by
        apply List.sum_nonneg
        intro x hx
        obtain ⟨tx, htx, rfl⟩ := List.mem_map.mp hx
        have := h tx (by simp [htx])
        exact le_of_lt (txAmount_pos this.1 this.2)
      simpa using add_pos_of_pos_of_nonneg hpos hnn

/-- C4: on a validated transaction set (every quantity and unit price
strictly positive) `region_wise_sales` never divides by zero — it
returns a value (`isSome`) — and when the grand total `revenueSum` is
zero the set is empty, so the result is `some []` and every region
present trivially has percentage 0. -/
theorem region_wise_sales_no_div_by_zero (txs : List Transaction)
    (h : ∀ tx ∈ txs, 0 < tx.Quantity ∧ 0 < tx.UnitPrice) :
    (DataProcessor.region_wise_sales txs).isSome = true ∧
    (DataProcessor.revenueSum txs = 0 →
      DataProcessor.region_wise_sales txs = some []) := by
  by_cases hne : txs = []
  · subst hne
    have hval : DataProcessor.region_wise_sales [] = some [] := by
      norm_num [DataProcessor.region_wise_sales, DataProcessor.regionFold,
        DataProcessor.revenueSum, List.insertionSort]
    rw [hval]
    exact ⟨rfl, fun _ => rfl⟩
  · have hpos := revenueSum_pos txs h hne
    have hcond : ¬ (DataProcessor.revenueSum txs = 0 ∧
        DataProcessor.regionFold txs ≠ []) :=
      fun hc => absurd hc.1 (ne_of_gt hpos)
    constructor
    · simp only [DataProcessor.region_wise_sales]
      rw [if_neg hcond]
      rfl
    · intro h0
      exact absurd h0 (ne_of_gt hpos)

/-- C4 witness at `[sampleTx]`. -/
theorem region_wise_sales_no_div_by_zero_witness :
    (∀ tx ∈ [sampleTx], 0 < tx.Quantity ∧ 0 < tx.UnitPrice) ∧
    (DataProcessor.region_wise_sales [sampleTx]).isSome = true :=
  ⟨by decide,
   (region_wise_sales_no_div_by_zero [sampleTx] (by decide)).1⟩

/-- `enrichOne` always carries the input transaction through unchanged
as its `base`. -/
theorem enrichOne_base (m : List (Nat × ApiHandler.CatalogEntry))
    (tx : Transaction) : (ApiHandler.enrichOne m tx).base = tx := by
  unfold ApiHandler.enrichOne
  rcases hx : ApiHandler.extractNumericId tx.ProductID with _ | id
  · rfl
  · rcases hl : m.lookup id with _ | e <;> simp [hx, hl]

/-- C5: for every transaction list and catalog mapping,
`enrich_sales_data` returns exactly one output record per input record
(`length` preserved), in the same order (mapping each output back to its
`base` recovers the input list exactly — no drops, no duplication), and
with the empty mapping every output record has `API_Match = false`. -/
theorem enrich_sales_data_shape (txs : List Transaction)
    (m : List (Nat × ApiHandler.CatalogEntry)) :
    (ApiHandler.enrich_sales_data txs m).length = txs.length ∧
    (ApiHandler.enrich_sales_data txs m).map ApiHandler.EnrichedTransaction.base
      = txs ∧
    (∀ e ∈ ApiHandler.enrich_sales_data txs
        ([] : List (Nat × ApiHandler.CatalogEntry)),
      e.API_Match = false) := by
  refine ⟨by simp [ApiHandler.enrich_sales_data], ?_, ?_⟩
  · simp only [ApiHandler.enrich_sales_data, List.map_map]
    have : ApiHandler.EnrichedTransaction.base ∘ ApiHandler.enrichOne m = id := by
      funext tx
      simpa using enrichOne_base m tx
    rw [this, List.map_id]
  · intro e he
    simp only [ApiHandler.enrich_sales_data, List.mem_map] at he
    obtain ⟨tx, _, rfl⟩ := he
    unfold ApiHandler.enrichOne
    rcases hx : ApiHandler.extractNumericId tx.ProductID with _ | id <;>
      simp [hx]

/-- C5 witness at `[sampleTx]` with `sampleCatalog` and with the empty
mapping. -/
theorem enrich_sales_data_shape_witness :
    (ApiHandler.enrich_sales_data [sampleTx] sampleCatalog).length = 1 ∧
    (ApiHandler.enrichOne ([] : List (Nat × ApiHandler.CatalogEntry))
      sampleTx).API_Match = false := by
  have h := enrich_sales_data_shape [sampleTx] sampleCatalog
  have h0 := enrich_sales_data_shape [sampleTx]
    ([] : List (Nat × ApiHandler.CatalogEntry))
  exact ⟨by simpa using h.1,
         h0.2.2 _ (by simp [ApiHandler.enrich_sales_data])⟩

/-- C6: enrichment extracts the numeric id of `ProductID` by
concatenating its digit characters (`"PX1Y2"` yields 12); when
extraction fails or the id is not a key of the mapping, the record is
carried through with `API_Match = false` and all `API_*` fields absent;
when the id is a key, `API_Category`, `API_Brand` and `API_Rating` are
copied from the catalog entry and `API_Match = true`. -/
theorem enrichOne_semantics (tx : Transaction)
    (m : List (Nat × ApiHandler.CatalogEntry)) :
    (ApiHandler.extractNumericId tx.ProductID = none →
      ApiHandler.enrichOne m tx = ⟨tx, none, none, none, false⟩) ∧
    (∀ id, ApiHandler.extractNumericId tx.ProductID = some id →
      m.lookup id = none →
      ApiHandler.enrichOne m tx = ⟨tx, none, none, none, false⟩) ∧
    (∀ id e, ApiHandler.extractNumericId tx.ProductID = some id →
      m.lookup id = some e →
      ApiHandler.enrichOne m tx = ⟨tx, e.category, e.brand, e.rating, true⟩) ∧
    ApiHandler.extractNumericId "PX1Y2" = some 12 := by
  refine ⟨?_, ?_, ?_, rfl⟩
  · intro hx
    simp [ApiHandler.enrichOne, hx]
  · intro id hx hl
    simp [ApiHandler.enrichOne, hx, hl]
  · intro id e hx hl
    simp [ApiHandler.enrichOne, hx, hl]

/-- C6 witness: `sampleTxPX` (`ProductID = "PX1Y2"`) matched against
`sampleCatalog` (id 12) copies category, brand and rating. -/
theorem enrichOne_semantics_witness :
    ApiHandler.enrichOne sampleCatalog sampleTxPX =
      ⟨sampleTxPX, some "electronics", some "Acme", some (9/2), true⟩ :=
  (enrichOne_semantics sampleTxPX sampleCatalog).2.2.1 12 sampleEntry rfl rfl

/-- C10: `enrich_sales_data` mutates no input record: the `i`-th output
record agrees with the `i`-th input record on all eight original fields,
whether or not a catalog match was found (the code copies the record and
only adds `API_*` keys). -/
theorem enrich_preserves_fields (txs : List Transaction)
    (m : List (Nat × ApiHandler.CatalogEntry)) (i : Nat)
    (h1 : i < (ApiHandler.enrich_sales_data txs m).length)
    (h2 : i < txs.length) :
    ((ApiHandler.enrich_sales_data txs m).get ⟨i, h1⟩).base.TransactionID
      = (txs.get ⟨i, h2⟩).TransactionID ∧
    ((ApiHandler.enrich_sales_data txs m).get ⟨i, h1⟩).base.Date
      = (txs.get ⟨i, h2⟩).Date ∧
    ((ApiHandler.enrich_sales_data txs m).get ⟨i, h1⟩).base.ProductID
      = (txs.get ⟨i, h2⟩).ProductID ∧
    ((ApiHandler.enrich_sales_data txs m).get ⟨i, h1⟩).base.ProductName
      = (txs.get ⟨i, h2⟩).ProductName ∧
    ((ApiHandler.enrich_sales_data txs m).get ⟨i, h1⟩).base.Quantity
      = (txs.get ⟨i, h2⟩).Quantity ∧
    ((ApiHandler.enrich_sales_data txs m).get ⟨i, h1⟩).base.UnitPrice
      = (txs.get ⟨i, h2⟩).UnitPrice ∧
    ((ApiHandler.enrich_sales_data txs m).get ⟨i, h1⟩).base.CustomerID
      = (txs.get ⟨i, h2⟩).CustomerID ∧
    ((ApiHandler.enrich_sales_data txs m).get ⟨i, h1⟩).base.Region
      = (txs.get ⟨i, h2⟩).Region := by
  have hb : ((ApiHandler.enrich_sales_data txs m).get ⟨i, h1⟩).base
      = txs.get ⟨i, h2⟩ := by
    simp [ApiHandler.enrich_sales_data, enrichOne_base]
  exact ⟨congrArg Transaction.TransactionID hb, congrArg Transaction.Date hb,
    congrArg Transaction.ProductID hb, congrArg Transaction.ProductName hb,
    congrArg Transaction.Quantity hb, congrArg Transaction.UnitPrice hb,
    congrArg Transaction.CustomerID hb, congrArg Transaction.Region hb⟩

/-- C10 witness at index 0 of `[sampleTx]` with `sampleCatalog`. -/
theorem enrich_preserves_fields_witness :
    ((ApiHandler.enrich_sales_data [sampleTx] sampleCatalog).get
        ⟨0, by simp [ApiHandler.enrich_sales_data]⟩).base.TransactionID
      = (([sampleTx] : List Transaction).get ⟨0, by simp⟩).TransactionID :=
  (enrich_preserves_fields [sampleTx] sampleCatalog 0
    (by simp [ApiHandler.enrich_sales_data]) (by simp)).1

/-- C7: `top_selling_products` groups by `ProductName` (the
`productFold` accumulation), returns at most `n` entries, sorted by
summed quantity descending; every returned entry's quantity is at least
that of every grouped product not returned (top-k correctness); and the
underlying sort is stable: grouped entries with equal summed quantity
keep their first-encountered relative order in the sorted list. -/
theorem top_selling_products_topk (txs : List Transaction) (n : Nat) :
    (DataProcessor.top_selling_products txs n).length ≤ n ∧
    List.Sorted topTupleGe (DataProcessor.top_selling_products txs n) ∧
    (∀ pd ∈ DataProcessor.productFold txs,
      pd.1 ∉ (DataProcessor.top_selling_products txs n).map Prod.fst →
      ∀ e ∈ DataProcessor.top_selling_products txs n,
        pd.2.quantity ≤ e.2.1) ∧
    (∀ a b, List.Sublist [a, b] (DataProcessor.productFold txs) →
      a.2.quantity = b.2.quantity →
      List.Sublist [a, b] (DataProcessor.sortedProducts txs)) := by
  have hsorted : List.Sorted DataProcessor.prodGe (DataProcessor.sortedProducts txs) :=
    List.sorted_insertionSort DataProcessor.prodGe (DataProcessor.productFold txs)
  refine ⟨?_, ?_, ?_, ?_⟩
  · simp only [DataProcessor.top_selling_products, List.length_map]
    exact List.length_take_le n _
  · have h1 : List.Sorted DataProcessor.prodGe
        ((DataProcessor.sortedProducts txs).take n) :=
      hsorted.sublist (List.take_sublist n _)
    exact List.pairwise_map.mpr h1
  · intro pd hpd hname e he
    have hmem : pd ∈ DataProcessor.sortedProducts txs := by
      simpa [DataProcessor.sortedProducts, List.mem_insertionSort] using hpd
    have hnot : pd ∉ (DataProcessor.sortedProducts txs).take n := by
      intro hin
      exact hname (by
        simp only [DataProcessor.top_selling_products, List.map_map, List.mem_map]
        exact ⟨pd, hin, rfl⟩)
    have hdrop : pd ∈ (DataProcessor.sortedProducts txs).drop n := by
      rcases List.mem_append.mp
          ((List.take_append_drop n (DataProcessor.sortedProducts txs)) ▸ hmem) with h | h
      · exact absurd h hnot
      · exact h
    obtain ⟨q, hq, rfl⟩ := List.mem_map.mp he
    have hp2 : List.Pairwise DataProcessor.prodGe
        ((DataProcessor.sortedProducts txs).take n
          ++ (DataProcessor.sortedProducts txs).drop n) := by
      rw [List.take_append_drop]
      exact hsorted
    exact (List.pairwise_append.mp hp2).2.2 q hq pd hdrop
  · intro a b hsub heq
    exact List.pair_sublist_insertionSort (le_of_eq heq.symm) hsub

/-- C7 witness on `tpTxs` with `n = 1`: Gamma (quantity 5) is returned,
the non-returned Alpha (quantity 2) is dominated, and the tied pair
Alpha–Beta keeps its input order in the sorted list. -/
theorem top_selling_products_topk_witness :
    (DataProcessor.top_selling_products tpTxs 1).length ≤ 1 ∧
    tpPdA.2.quantity ≤ (("Gamma", (5 : Int), (50 : Rat))).2.1 ∧
    List.Sublist [tpPdA, tpPdB] (DataProcessor.sortedProducts tpTxs) := by
  have h := top_selling_products_topk tpTxs 1
  have hpf : DataProcessor.productFold tpTxs
      = [tpPdA, tpPdB, ("Gamma", ⟨5, 50⟩)] := by
    simp [DataProcessor.productFold, upsert, txAmount, tpTxs, tpTxA, tpTxB, tpTxC,
      tpPdA, tpPdB]
    norm_num
  have htop : DataProcessor.top_selling_products tpTxs 1
      = [("Gamma", 5, 50)] := by
    simp [DataProcessor.top_selling_products, DataProcessor.sortedProducts,
      DataProcessor.productFold, upsert, txAmount, tpTxs, tpTxA, tpTxB, tpTxC,
      List.insertionSort, List.orderedInsert, DataProcessor.prodGe,
      round2, roundHalfEven]
    norm_num
  refine ⟨h.1, ?_, ?_⟩
  · exact h.2.2.1 tpPdA (by rw [hpf]; decide)
      (by rw [htop]; decide) ("Gamma", 5, 50) (by rw [htop]; decide)
  · exact h.2.2.2 tpPdA tpPdB (by rw [hpf]; decide) (by decide)

/-- C8: `low_performing_products` contains exactly the grouped products
whose summed quantity is strictly below the threshold — each as the
tuple (name, summed quantity, rounded revenue) — and is ordered by
summed quantity ascending. -/
theorem low_performing_products_exact (txs : List Transaction) (t : Int) :
    (∀ e, e ∈ DataProcessor.low_performing_products txs t ↔
      ∃ pd, pd ∈ DataProcessor.productFold txs ∧ pd.2.quantity < t ∧
        e = (pd.1, pd.2.quantity, round2 pd.2.revenue)) ∧
    List.Sorted DataProcessor.lowTupleLe
      (DataProcessor.low_performing_products txs t) := by
  constructor
  · intro e
    rw [DataProcessor.low_performing_products, List.mem_insertionSort,
      List.mem_map]
    constructor
    · rintro ⟨pd, hpd, rfl⟩
      rw [List.mem_filter] at hpd
      exact ⟨pd, hpd.1, by simpa using hpd.2, rfl⟩
    · rintro ⟨pd, hpd, hq, rfl⟩
      exact ⟨pd, List.mem_filter.mpr ⟨hpd, by simpa using hq⟩, rfl⟩
  · exact List.sorted_insertionSort DataProcessor.lowTupleLe _

/-- C8 witness on `tpTxs` with threshold 10: the membership
characterisation at the Alpha tuple and sortedness of the result. -/
theorem low_performing_products_exact_witness :
    (("Alpha", (2 : Int), round2 20) ∈
        DataProcessor.low_performing_products tpTxs 10 ↔
      ∃ pd, pd ∈ DataProcessor.productFold tpTxs ∧ pd.2.quantity < 10 ∧
        ("Alpha", (2 : Int), round2 20)
          = (pd.1, pd.2.quantity, round2 pd.2.revenue)) ∧
    List.Sorted DataProcessor.lowTupleLe
      (DataProcessor.low_performing_products tpTxs 10) :=
  ⟨(low_performing_products_exact tpTxs 10).1 _,
   (low_performing_products_exact tpTxs 10).2⟩

/-- `roundHalfEven` moves a rational by at most one half. -/
theorem roundHalfEven_abs (x : Rat) : |x - (roundHalfEven x : Rat)| ≤ 1/2 := by
  have h0 : (0 : Rat) ≤ x - ⌊x⌋ := by
    have := Int.fract_nonneg x
    rwa [Int.fract] at this
  have h1 : x - ⌊x⌋ < 1 := by
    have := Int.fract_lt_one x
    rwa [Int.fract] at this
  unfold roundHalfEven
  split_ifs with hlt hgt heven
  · rw [abs_of_nonneg h0]
    linarith
  · push_cast
    rw [abs_of_nonpos (by linarith)]
    linarith
  · rw [abs_of_nonneg h0]
    linarith
  · push_cast
    rw [abs_of_nonpos (by linarith)]
    linarith

/-- Rounding to two decimals moves a rational by at most 1/200. -/
theorem round2_abs (x : Rat) : |x - round2 x| ≤ 1/200 := by
  unfold round2
  have h := roundHalfEven_abs (x * 100)
  have hx : x - (roundHalfEven (x * 100) : Rat) / 100
      = (x * 100 - (roundHalfEven (x * 100) : Rat)) / 100 := by ring
  rw [hx, abs_div]
  rw [show |(100 : Rat)| = 100 by norm_num]
  linarith

/-- One `region_wise_sales` loop step adds exactly the transaction's
amount to the summed `total_sales`. -/
theorem regionSalesSum_regionStep (tx : Transaction)
    (acc : List (String × DataProcessor.RegionAcc)) :
    regionSalesSum (DataProcessor.regionStep tx acc)
      = regionSalesSum acc + txAmount tx := by
  induction acc with
  | nil => simp [regionSalesSum, DataProcessor.regionStep, upsert]
  | cons hd tl ih =>
      obtain ⟨k, v⟩ := hd
      simp only [DataProcessor.regionStep, upsert] at ih ⊢
      by_cases hk : k = tx.Region
      · rw [if_pos hk]
        simp [regionSalesSum]
        ring
      · rw [if_neg hk]
        simp only [regionSalesSum, List.map_cons, List.sum_cons] at ih ⊢
        rw [ih]
        ring

/-- Folding the `region_data` accumulation over a transaction list adds
its whole revenue sum to the summed `total_sales`. -/
theorem regionSalesSum_foldl (txs : List Transaction)
    (acc : List (String × DataProcessor.RegionAcc)) :
    regionSalesSum (txs.foldl (fun a tx => DataProcessor.regionStep tx a) acc)
      = regionSalesSum acc + DataProcessor.revenueSum txs := by
  induction txs generalizing acc with
  | nil => simp [DataProcessor.revenueSum]
  | cons t ts ih =>
      simp only [List.foldl_cons]
      rw [ih (DataProcessor.regionStep t acc), regionSalesSum_regionStep]
      have h : DataProcessor.revenueSum (t :: ts)
          = (0 + txAmount t) + DataProcessor.revenueSum ts := by
        simpa [DataProcessor.revenueSum] using revenueSum_foldl ts (0 + txAmount t)
      rw [h]
      ring

/-- The region accumulation partitions the revenue sum exactly. -/
theorem regionSalesSum_regionFold (txs : List Transaction) :
    regionSalesSum (DataProcessor.regionFold txs)
      = DataProcessor.revenueSum txs := by
  simpa [regionSalesSum] using regionSalesSum_foldl txs []

/-- C9: for every validated transaction set, the sum of the `total_sales`
values produced by `region_wise_sales` equals `calculate_total_revenue`
of the same set up to the tolerance of rounding the grand total to two
decimal places (at most 1/200). -/
theorem region_totals_match_revenue (txs : List Transaction)
    (rs : List (String × DataProcessor.RegionInfo))
    (_hval : ∀ tx ∈ txs, 0 < tx.Quantity ∧ 0 < tx.UnitPrice)
    (hrs : DataProcessor.region_wise_sales txs = some rs) :
    |infoSalesSum rs - DataProcessor.calculate_total_revenue txs| ≤ 1/200 := by
  have hsum : infoSalesSum rs = DataProcessor.revenueSum txs := by
    by_cases hc : (DataProcessor.revenueSum txs = 0 ∧
        DataProcessor.regionFold txs ≠ [])
    · simp only [DataProcessor.region_wise_sales, if_pos hc] at hrs
      exact absurd hrs (by simp)
    · simp only [DataProcessor.region_wise_sales, if_neg hc,
        Option.some.injEq] at hrs
      subst hrs
      unfold infoSalesSum
      rw [List.Perm.sum_eq (List.Perm.map _ (List.perm_insertionSort _ _))]
      rw [List.map_map]
      exact regionSalesSum_regionFold txs
  rw [hsum, DataProcessor.calculate_total_revenue]
  exact round2_abs _

/-- C9 witness at `[sampleTx]`: one North transaction of amount 10. -/
theorem region_totals_match_revenue_witness :
    (∀ tx ∈ [sampleTx], 0 < tx.Quantity ∧ 0 < tx.UnitPrice) ∧
    DataProcessor.region_wise_sales [sampleTx] = some sampleRegionResult ∧
    |infoSalesSum sampleRegionResult
      - DataProcessor.calculate_total_revenue [sampleTx]| ≤ 1/200 := by
  have hval : ∀ tx ∈ [sampleTx], 0 < tx.Quantity ∧ 0 < tx.UnitPrice := by
    decide
  have hrs : DataProcessor.region_wise_sales [sampleTx]
      = some sampleRegionResult := by
    simp [DataProcessor.region_wise_sales, DataProcessor.regionFold,
      DataProcessor.regionStep, upsert, DataProcessor.revenueSum, txAmount,
      sampleTx, List.insertionSort, List.orderedInsert, round2, roundHalfEven,
      sampleRegionResult]
    norm_num
  exact ⟨hval, hrs,
    region_totals_match_revenue [sampleTx] sampleRegionResult hval hrs⟩
